import Mathlib

/-!
Verification of the crop-geometry engine, post-processing policy and
configuration validation of the facecrop tool.

Rust `f32` scalars are embedded as exact rationals (`ℚ`): every arithmetic
identity claimed by the specification is an exact identity of the underlying
formulas, and the code performs no operation whose result depends on
floating-point rounding for the properties considered here.  Rust `u32`
values are embedded as `ℕ`.
-/

namespace Facecrop

/-- Rectangle in pixel space.  Modelled from the spec: the `Rect` type of the
external `rust_faces` crate, `{x, y, width, height}` with floating-point
coordinates, built via `Rect::at(x, y).with_size(w, h)`. -/
structure Rect where
  x : ℚ
  y : ℚ
  width : ℚ
  height : ℚ
deriving DecidableEq, Repr

/-- `Rect::at(x, y)` of the `rust_faces` crate (`at` is a Lean keyword, hence
the primed name): rectangle anchored at `(x, y)` with zero size. -/
def Rect.at' (x y : ℚ) : Rect :=
  ⟨x, y, 0, 0⟩

/-- `Rect::with_size(w, h)` of the `rust_faces` crate. -/
def Rect.with_size (r : Rect) (w h : ℚ) : Rect :=
  { r with width := w, height := h }

/-- Right edge of a rectangle. -/
def Rect.right (r : Rect) : ℚ :=
  r.x + r.width

/-- Bottom edge of a rectangle (y grows downwards). -/
def Rect.bottom (r : Rect) : ℚ :=
  r.y + r.height

/-- Modelled from the spec: `Rect::intersection` of the external `rust_faces`
crate, "standard rectangle intersection (overlap region); if the computed crop
extends past any image edge, it is cut to that edge, never extrapolated or
padded".  Left/top edges are the maxima, right/bottom edges the minima of the
two operands; a disjoint pair yields a degenerate (non-positive size)
rectangle. -/
def Rect.intersection (r other : Rect) : Rect :=
  let nx := max r.x other.x
  let ny := max r.y other.y
  ⟨nx, ny, min (Rect.right r) (Rect.right other) - nx,
    min (Rect.bottom r) (Rect.bottom other) - ny⟩

/-- A point lies in the (closed) region covered by a rectangle. -/
def Rect.containsPoint (r : Rect) (px py : ℚ) : Prop :=
  r.x ≤ px ∧ px ≤ Rect.right r ∧ r.y ≤ py ∧ py ≤ Rect.bottom r

instance (r : Rect) (px py : ℚ) : Decidable (Rect.containsPoint r px py) := by
  unfold Rect.containsPoint; infer_instance

/-- `AbsoluteCrop` from src/cropping.rs. -/
structure AbsoluteCrop where
  height : ℕ
  width : ℕ
deriving DecidableEq, Repr

/-- `RelativeCrop` from src/cropping.rs. -/
structure RelativeCrop where
  aspect_ratio : ℚ
  proportion_of_face : ℚ
deriving DecidableEq, Repr

/-- `CropParamsKind` from src/cropping.rs. -/
inductive CropParamsKind where
  | Absolute (params : AbsoluteCrop)
  | Relative (params : RelativeCrop)
deriving DecidableEq, Repr

/-- `CropParams` from src/cropping.rs. -/
structure CropParams where
  top_padding : ℚ
  kind : CropParamsKind
deriving DecidableEq, Repr

/-- `calculate_crop_dimensions_by_ratios` from src/cropping.rs (lines
129-137): returns `(crop_height, crop_width)` for a relative crop. -/
def calculate_crop_dimensions_by_ratios (face : Rect)
    ( aspect_ratio proportion_of_face : ℚ) : ℚ × ℚ :=
  let crop_height := face.height / proportion_of_face
  let crop_width := crop_height * aspect_ratio
  (crop_height, crop_width)

/-- `calculate_crop_position` from src/cropping.rs (lines 151-160): returns
`(crop_x, crop_y)` for given crop dimensions and top padding. -/
def calculate_crop_position (face : Rect) (crop_height crop_width top_padding : ℚ) :
    ℚ × ℚ :=
  let crop_x := face.x + (face.width / 2) - (crop_width / 2)
  let crop_y := face.y - (crop_height * top_padding)
  (crop_x, crop_y)

/-- The `match` on `params.kind` at the head of `calculate_face_crop`
(src/cropping.rs lines 99-108): the pre-clamp crop dimensions
`(crop_height, crop_width)`. -/
def crop_dimensions (face : Rect) (params : CropParams) : ℚ × ℚ :=
  match params.kind with
  | CropParamsKind.Absolute absolute_params =>
      ((absolute_params.height : ℚ), (absolute_params.width : ℚ))
  | CropParamsKind.Relative ⟨ aspect_ratio, proportion_of_face⟩ =>
      calculate_crop_dimensions_by_ratios face aspect_ratio proportion_of_face

/-- The rectangle `Rect::at(crop_x, crop_y).with_size(crop_width, crop_height)`
built in `calculate_face_crop` before the intersection with the image
(src/cropping.rs lines 110-114). -/
def preclamp_crop_rect (face : Rect) (params : CropParams) : Rect :=
  let hw := crop_dimensions face params
  let xy := calculate_crop_position face hw.1 hw.2 params.top_padding
  Rect.with_size (Rect.at' xy.1 xy.2) hw.2 hw.1

/-- `calculate_face_crop` from src/cropping.rs (lines 98-116): pre-clamp
rectangle intersected with the image rectangle ("can never crop outside the
image"). -/
def calculate_face_crop (face image : Rect) (params : CropParams) : Rect :=
  Rect.intersection (preclamp_crop_rect face params) image

/-- The relative parameters of the spec's worked example:
`Relative{aspect_ratio: 1.0, proportion_of_face: 0.5}`, `top_padding: 0.1`. -/
def exampleParams : CropParams :=
  ⟨1/10, CropParamsKind.Relative ⟨1, 1/2⟩⟩

/-- C1: every point of the crop rectangle returned by `calculate_face_crop`
lies inside the image rectangle `[0, W] × [0, H]` anchored at the origin, for
every face rectangle and every crop params; and on the spec's edge example
(face `{x:950, y:50, width:200, height:200}` in a 1000×1000 image with
relative params `a=1, p=0.5, t=0.1`) the computed crop `(850, 10, 400, 400)`
is cut at the right image edge to width `150`. -/
theorem C1_crop_contained_in_image :
    (∀ (face : Rect) (W H : ℚ) (params : CropParams) (px py : ℚ),
      Rect.containsPoint (calculate_face_crop face ⟨0, 0, W, H⟩ params) px py →
        0 ≤ px ∧ px ≤ W ∧ 0 ≤ py ∧ py ≤ H) ∧
    calculate_face_crop ⟨950, 50, 200, 200⟩ ⟨0, 0, 1000, 1000⟩ exampleParams
      = ⟨850, 10, 150, 400⟩ := by
  constructor
  · intro face W H params px py h
    obtain ⟨h1, h2, h3, h4⟩ := h
    simp only [calculate_face_crop, Rect.intersection, Rect.right, Rect.bottom] at h1 h2 h3 h4
    refine ⟨?_, ?_, ?_, ?_⟩
    · calc (0 : ℚ) ≤ max (preclamp_crop_rect face params).x 0 := le_max_right _ _
        _ ≤ px := by simpa using h1
    · calc px ≤ _ := h2
        _ ≤ W := by
            simp only [add_sub_cancel]
            exact le_trans (min_le_right _ _) (by simp [Rect.right])
    · calc (0 : ℚ) ≤ max (preclamp_crop_rect face params).y 0 := le_max_right _ _
        _ ≤ py := by simpa using h3
    · calc py ≤ _ := h4
        _ ≤ H := by
            simp only [add_sub_cancel]
            exact le_trans (min_le_right _ _) (by simp [Rect.bottom])
  · simp only [calculate_face_crop, preclamp_crop_rect, crop_dimensions,
      calculate_crop_dimensions_by_ratios, calculate_crop_position, exampleParams,
      Rect.intersection, Rect.at', Rect.with_size, Rect.right, Rect.bottom,
      Rect.mk.injEq]
    norm_num

/-- Concrete instance of C1: the point `(300, 260)` lies in the crop computed
for the spec's first worked example, hence inside the 1000×1000 image. -/
theorem C1_crop_contained_in_image_witness :
    0 ≤ (300 : ℚ) ∧ (300 : ℚ) ≤ 1000 ∧ 0 ≤ (260 : ℚ) ∧ (260 : ℚ) ≤ 1000 :=
  C1_crop_contained_in_image.1 ⟨400, 300, 200, 200⟩ 1000 1000 exampleParams
    300 260 (by
      simp only [calculate_face_crop, preclamp_crop_rect, crop_dimensions,
        calculate_crop_dimensions_by_ratios, calculate_crop_position, exampleParams,
        Rect.intersection, Rect.at', Rect.with_size, Rect.right, Rect.bottom,
        Rect.containsPoint]
      norm_num)

/-- C2: for a face of height `fh` and relative params with `0 < p ≤ 1` and
`0 < a`, `calculate_crop_dimensions_by_ratios` returns crop height `fh / p`
and crop width `(fh / p) * a`; in particular a face of height 200 with
`p = 0.5`, `a = 1` yields a 400 × 400 crop. -/
theorem C2_relative_crop_dimensions :
    (∀ (face : Rect) (a p : ℚ), 0 < p → p ≤ 1 → 0 < a →
      calculate_crop_dimensions_by_ratios face a p
        = (face.height / p, face.height / p * a)) ∧
    (∀ face : Rect, face.height = 200 →
      calculate_crop_dimensions_by_ratios face 1 (1/2) = (400, 400)) := by
  constructor
  · intro face a p _ _ _
    rfl
  · intro face h
    simp [calculate_crop_dimensions_by_ratios, h]
    norm_num

/-- Concrete instance of C2 at `fh = 200`, `p = 1/2`, `a = 1`. -/
theorem C2_relative_crop_dimensions_witness :
    calculate_crop_dimensions_by_ratios ⟨400, 300, 200, 200⟩ 1 (1/2)
      = (200 / (1/2 : ℚ), 200 / (1/2 : ℚ) * 1) :=
  C2_relative_crop_dimensions.1 ⟨400, 300, 200, 200⟩ 1 (1/2)
    (by norm_num) (by norm_num) (by norm_num)

/-- C3: the crop position returned by `calculate_crop_position` is
horizontally centered on the face (`crop_x + crop_width/2 =
face.x + face.width/2`) and vertically offset by the top padding
(`crop_y = face.y - crop_height * t`); with `t = 0` the crop top edge equals
the face top edge. -/
theorem C3_crop_position_centering_and_padding :
    ∀ (face : Rect) (ch cw t : ℚ),
      (calculate_crop_position face ch cw t).1 + cw / 2
          = face.x + face.width / 2 ∧
      (calculate_crop_position face ch cw t).2 = face.y - ch * t ∧
      (calculate_crop_position face ch cw 0).2 = face.y := by
  intro face ch cw t
  refine ⟨?_, rfl, ?_⟩
  · simp only [calculate_crop_position]
    ring
  · simp [calculate_crop_position]

/-- RGB image: dimensions and pixel contents.  Embeds `image::RgbImage`
(8-bit channel values abstracted as `ℕ` triples; only dimensions and
whole-image identity matter to the claims). -/
structure RgbImage where
  width : ℕ
  height : ℕ
  pixels : ℕ → ℕ → ℕ × ℕ × ℕ

/-- Rust saturating cast `f32 as u32`: truncation toward zero, negative
values to `0`, values above `u32::MAX` to `u32::MAX`. -/
def f32_as_u32 (q : ℚ) : ℕ :=
  min (Int.toNat ⌊q⌋) (2 ^ 32 - 1)

/-- Modelled from the spec: `image::imageops::crop_imm(..).to_image()` of the
external image crate — the sub-image at `(x, y)` of size `(w, h)`, cut to the
image bounds. -/
def crop_imm (img : RgbImage) (x y w h : ℕ) : RgbImage :=
  let cx := min x img.width
  let cy := min y img.height
  ⟨min w (img.width - cx), min h (img.height - cy),
    fun i j => img.pixels (cx + i) (cy + j)⟩

/-- `Face` of the external `rust_faces` crate: bounding box and confidence. -/
structure Face where
  rect : Rect
  confidence : ℚ
deriving DecidableEq, Repr

/-- `CropInputs` from src/cropping.rs. -/
structure CropInputs where
  input_image : RgbImage
  faces : List Face

/-- `CropOutputs` from src/cropping.rs. -/
structure CropOutputs where
  image : RgbImage
  confidence : ℚ

/-- `crop_faces` from src/cropping.rs (lines 65-96): `none` when the face
list is empty, otherwise one `CropOutputs` per face (the source's
`for`/`push` loop is a map). -/
def crop_faces (faces_to_crop : CropInputs) (crop_params : CropParams) :
    Option (List CropOutputs) :=
  if faces_to_crop.faces.length = 0 then
    none
  else
    some (faces_to_crop.faces.map fun face =>
      let crop := calculate_face_crop face.rect
        (Rect.with_size (Rect.at' 0 0)
          (faces_to_crop.input_image.width : ℚ)
          (faces_to_crop.input_image.height : ℚ))
        crop_params
      { image := crop_imm faces_to_crop.input_image
          (f32_as_u32 crop.x) (f32_as_u32 crop.y)
          (f32_as_u32 crop.width) (f32_as_u32 crop.height),
        confidence := face.confidence })

/-- `PostProcessParams` from src/post_processing.rs. -/
structure PostProcessParams where
  resize : Bool
  filter_by_size : Bool
  height : ℕ
  width : ℕ
deriving DecidableEq, Repr

/-- Type of the Lanczos3 resampling kernel, abstracted (see
`imageops_resize`). -/
abbrev ResampleFun := RgbImage → ℕ → ℕ → ℕ → ℕ → ℕ × ℕ × ℕ

/-- Modelled from the spec: `image::imageops::resize` of the external image
crate returns an image of exactly the requested dimensions whose pixels come
from Lanczos3 resampling; the resampled values are floating-point and no
claim depends on them, so the kernel is the abstract parameter `sample`. -/
def imageops_resize (sample : ResampleFun) (img : RgbImage)
    (nwidth nheight : ℕ) : RgbImage :=
  ⟨nwidth, nheight, fun i j => sample img nwidth nheight i j⟩

/-- `post_process_image` from src/post_processing.rs (lines 11-34): the early
`return None` under `filter_by_size`, then resize-or-clone. -/
def post_process_image (sample : ResampleFun) (input_image : RgbImage)
    (post_process_params : PostProcessParams) : Option RgbImage :=
  if post_process_params.filter_by_size = true ∧
      (input_image.width < post_process_params.width ∨
        input_image.height < post_process_params.height) then
    none
  else
    let resized_image := match post_process_params.resize with
      | true => imageops_resize sample input_image
          post_process_params.width post_process_params.height
      | false => input_image
    some resized_image

/-- `CropStrategy` from src/main.rs. -/
inductive CropStrategy where
  | Absolute
  | Relative
deriving DecidableEq, Repr

/-- The configuration fields of `Args` (src/main.rs) consumed by
`get_crop_params`; the path/verbosity fields are I/O glue outside the core. -/
structure Args where
  strategy : CropStrategy
  aspect_ratio : ℚ
  top_padding : ℚ
  proportion_of_face : ℚ
  height : ℕ
  width : ℕ
deriving DecidableEq, Repr

/-- `get_crop_params` from src/main.rs (lines 215-243); a `panic!` aborting
the run is embedded as `Except.error` carrying the panic message. -/
def get_crop_params (args : Args) : Except String CropParams :=
  if args.top_padding < 0 ∨ args.top_padding > 1 then
    Except.error "Top padding must be between 0.0 and 1.0"
  else
    match args.strategy with
    | CropStrategy.Absolute =>
        Except.ok ⟨args.top_padding, CropParamsKind.Absolute ⟨args.height, args.width⟩⟩
    | CropStrategy.Relative =>
        if Args.aspect_ratio args ≤ 0 then
          Except.error "Aspect ratio must be greater than 0"
        else if args.proportion_of_face < 0 ∨ args.proportion_of_face > 1 then
          Except.error "Proportion of face must be between 0.0 and 1.0"
        else
          Except.ok ⟨args.top_padding,
            CropParamsKind.Relative ⟨ Args.aspect_ratio args, args.proportion_of_face⟩⟩

/-- A file saved by `process_faces`: name stem, face index, confidence (the
three components of the output file name) and the image written. -/
structure SavedFile where
  image_name : String
  face_index : ℕ
  confidence : ℚ
  image : RgbImage

/-- `process_faces` from src/main.rs (lines 262-294), modelled as the list of
files it saves: `none` from `crop_faces` means the image is skipped with a
warning and nothing is saved; `none` from post-processing skips that single
crop. -/
def process_faces (sample : ResampleFun) (faces_to_crop : CropInputs)
    (crop_params : CropParams) (post_process_params : PostProcessParams)
    (image_name : String) : List SavedFile :=
  match crop_faces faces_to_crop crop_params with
  | none => []
  | some crops =>
      crops.enum.filterMap fun ic =>
        match post_process_image sample ic.2.image post_process_params with
        | some cropped_image => some ⟨image_name, ic.1, ic.2.confidence, cropped_image⟩
        | none => none

/-- The per-image loop of `main` (src/main.rs lines 148-166), over already
decoded images, with the face detector as an injected collaborator. -/
def process_images (sample : ResampleFun) (detector : RgbImage → List Face)
    (crop_params : CropParams) (post_process_params : PostProcessParams)
    (images : List (String × RgbImage)) : List SavedFile :=
  (images.map fun ni =>
    process_faces sample ⟨ni.2, detector ni.2⟩ crop_params post_process_params ni.1).flatten

/-- C6: for `Absolute{height, width}` params the pre-clamp crop rectangle
built by `calculate_face_crop` has exactly the params' width and height,
whatever the face rectangle and top padding are. -/
theorem C6_absolute_crop_dimensions :
    ∀ (face : Rect) (t : ℚ) (h w : ℕ),
      (preclamp_crop_rect face ⟨t, CropParamsKind.Absolute ⟨h, w⟩⟩).width = w ∧
      (preclamp_crop_rect face ⟨t, CropParamsKind.Absolute ⟨h, w⟩⟩).height = h := by
  intro face t h w
  exact ⟨rfl, rfl⟩

/-- The configuration-validity predicate asserted by the claim, following the
spec's words (for comparison with `get_crop_params`): `top_padding ∈ [0,1]`;
relative strategy: `aspect_ratio > 0` and `proportion_of_face ∈ [0,1]`;
absolute strategy: `height` and `width` positive. -/
def spec_valid_config (args : Args) : Prop :=
  (0 ≤ args.top_padding ∧ args.top_padding ≤ 1) ∧
  (args.strategy = CropStrategy.Relative →
    0 < Args.aspect_ratio args ∧
      0 ≤ args.proportion_of_face ∧ args.proportion_of_face ≤ 1) ∧
  (args.strategy = CropStrategy.Absolute → 0 < args.height ∧ 0 < args.width)

/-- The configuration check actually performed by `get_crop_params`:
`top_padding ∈ [0,1]` always, and for the relative strategy `aspect_ratio >
0` and `proportion_of_face ∈ [0,1]`; the absolute strategy's `height` and
`width` are not checked. -/
def code_valid_config (args : Args) : Prop :=
  (0 ≤ args.top_padding ∧ args.top_padding ≤ 1) ∧
  (args.strategy = CropStrategy.Relative →
    0 < Args.aspect_ratio args ∧
      0 ≤ args.proportion_of_face ∧ args.proportion_of_face ≤ 1)

/-- An absolute-strategy configuration with `height = width = 0`: invalid
per the claim, accepted by the code. -/
def zeroDimsArgs : Args :=
  ⟨CropStrategy.Absolute, 1, 0, 3/10, 0, 0⟩

/-- C5 counterexample: the configuration `strategy = absolute, height = 0,
width = 0, top_padding = 0` is invalid by the claim's list (absolute height
and width must be positive), yet `get_crop_params` accepts it instead of
aborting. -/
theorem C5_counterexample_zero_absolute_dims :
    ¬ spec_valid_config zeroDimsArgs ∧
      (get_crop_params zeroDimsArgs).isOk = true := by
  constructor
  · intro h
    have := h.2.2 rfl
    simp [zeroDimsArgs] at this
  · norm_num [get_crop_params, zeroDimsArgs, Except.isOk, Except.toBool]

/-- C5 (amended): `get_crop_params` succeeds exactly when `top_padding ∈
[0,1]` and, for the relative strategy, `aspect_ratio > 0` and
`proportion_of_face ∈ [0,1]`; the absolute strategy's `height` and `width`
are accepted unchecked. -/
theorem C5_validation_matches_code (args : Args) :
    (get_crop_params args).isOk = true ↔ code_valid_config args := by
  unfold get_crop_params code_valid_config
  by_cases h1 : args.top_padding < 0 ∨ args.top_padding > 1
  · rw [if_pos h1]
    simp only [Except.isOk, Except.toBool, Bool.false_eq_true, false_iff]
    rintro ⟨⟨ha, hb⟩, -⟩
    rcases h1 with h | h <;> linarith
  · rw [if_neg h1]
    push_neg at h1
    cases hs : args.strategy with
    | Absolute =>
        simp [Except.isOk, Except.toBool, h1.1, h1.2]
    | Relative =>
        by_cases h2 : Args.aspect_ratio args ≤ 0
        · rw [if_pos h2]
          simp only [Except.isOk, Except.toBool, Bool.false_eq_true, false_iff]
          rintro ⟨-, hrel⟩
          exact absurd (hrel trivial).1 (not_lt.mpr h2)
        · by_cases h3 : args.proportion_of_face < 0 ∨ args.proportion_of_face > 1
          · rw [if_neg h2, if_pos h3]
            simp only [Except.isOk, Except.toBool, Bool.false_eq_true, false_iff]
            rintro ⟨-, hrel⟩
            obtain ⟨-, hp0, hp1⟩ := hrel trivial
            rcases h3 with h | h <;> linarith
          · rw [if_neg h2, if_neg h3]
            push_neg at h2 h3
            simp [Except.isOk, Except.toBool, h1.1, h1.2, h2, h3.1, h3.2]

/-- A 1×1 test image. -/
def img1 : RgbImage :=
  ⟨1, 1, fun _ _ => (0, 0, 0)⟩

/-- A 2×2 test image. -/
def img2 : RgbImage :=
  ⟨2, 2, fun _ _ => (0, 0, 0)⟩

/-- A trivial concrete resampling kernel, used to instantiate theorems that
are generic in the (abstracted) Lanczos3 kernel. -/
def sample0 : ResampleFun :=
  fun _ _ _ _ _ => (0, 0, 0)

/-- Concrete absolute crop params used by witnesses. -/
def cp0 : CropParams :=
  ⟨0, CropParamsKind.Absolute ⟨1, 1⟩⟩

/-- C4: with `filter_by_size = true`, `post_process_image` returns `none`
when the input image is smaller than the target in either dimension —
whatever the `resize` flag is, since the test reads the pre-resize
dimensions — and returns a result when the image is at or above the target
size in both dimensions, that result being the unchanged input image when
`resize = false`. -/
theorem C4_size_filter (sample : ResampleFun) (img : RgbImage)
    (pp : PostProcessParams) (hf : pp.filter_by_size = true) :
    (img.width < pp.width ∨ img.height < pp.height →
      post_process_image sample img pp = none) ∧
    (pp.width ≤ img.width ∧ pp.height ≤ img.height →
      (post_process_image sample img pp).isSome = true ∧
      (pp.resize = false → post_process_image sample img pp = some img)) := by
  constructor
  · intro hsmall
    simp [post_process_image, hf, hsmall]
  · rintro ⟨h1, h2⟩
    have hbig : ¬ (img.width < pp.width ∨ img.height < pp.height) := by omega
    constructor
    · cases hr : pp.resize <;> simp [post_process_image, hf, hbig, hr]
    · intro hr
      simp [post_process_image, hf, hbig, hr]

/-- Concrete instance of C4: a 1×1 image is dropped against a 2×2 target,
and a 2×2 image passes through unchanged when `resize = false`. -/
theorem C4_size_filter_witness :
    post_process_image sample0 img1 ⟨false, true, 2, 2⟩ = none ∧
      post_process_image sample0 img2 ⟨false, true, 2, 2⟩ = some img2 :=
  ⟨(C4_size_filter sample0 img1 ⟨false, true, 2, 2⟩ rfl).1
      (by norm_num [img1]),
    ((C4_size_filter sample0 img2 ⟨false, true, 2, 2⟩ rfl).2
      (by norm_num [img2])).2 rfl⟩

/-- C7: with `resize = true`, whenever `post_process_image` returns an
image, that image has exactly the params' width and height, whatever size
the input image has. -/
theorem C7_resize_exact_dimensions (sample : ResampleFun) (img : RgbImage)
    (pp : PostProcessParams) (out : RgbImage) (hr : pp.resize = true)
    (h : post_process_image sample img pp = some out) :
    out.width = pp.width ∧ out.height = pp.height := by
  by_cases hc : pp.filter_by_size = true ∧
      (img.width < pp.width ∨ img.height < pp.height)
  · simp [post_process_image, hc] at h
  · simp only [post_process_image, if_neg hc, hr, Option.some.injEq] at h
    subst h
    exact ⟨rfl, rfl⟩

/-- Concrete instance of C7: upscaling a 1×1 image to a 7×5 target yields
exactly a 7×5 image. -/
theorem C7_resize_exact_dimensions_witness :
    (imageops_resize sample0 img1 7 5).width = 7 ∧
      (imageops_resize sample0 img1 7 5).height = 5 :=
  C7_resize_exact_dimensions sample0 img1 ⟨true, false, 5, 7⟩
    (imageops_resize sample0 img1 7 5) rfl rfl

/-- C9: with `filter_by_size = false`, `post_process_image` always returns a
result, whatever the image dimensions and the `resize` flag are: the size
filter is its only `none` path. -/
theorem C9_none_only_from_size_filter (sample : ResampleFun) (img : RgbImage)
    (pp : PostProcessParams) (hf : pp.filter_by_size = false) :
    (post_process_image sample img pp).isSome = true := by
  cases hr : pp.resize <;> simp [post_process_image, hf, hr]

/-- Concrete instance of C9: a 1×1 image against a 9×9 target with filtering
off still produces a result. -/
theorem C9_none_only_from_size_filter_witness :
    (post_process_image sample0 img1 ⟨false, false, 9, 9⟩).isSome = true :=
  C9_none_only_from_size_filter sample0 img1 ⟨false, false, 9, 9⟩ rfl

/-- C8: with zero detected faces, `crop_faces` returns `none`;
`process_faces` then saves no file for that image; and an image whose
detection is empty leaves the processing of every other image in the run
unchanged (the loop continues). -/
theorem C8_no_faces_skips_image (img : RgbImage) (cp : CropParams) :
    crop_faces ⟨img, []⟩ cp = none ∧
    (∀ (sample : ResampleFun) (pp : PostProcessParams) (nm : String),
      process_faces sample ⟨img, []⟩ cp pp nm = []) ∧
    (∀ (sample : ResampleFun) (detector : RgbImage → List Face)
        (pp : PostProcessParams) (nm : String)
        (xs ys : List (String × RgbImage)),
      detector img = [] →
      process_images sample detector cp pp (xs ++ (nm, img) :: ys)
        = process_images sample detector cp pp xs
          ++ process_images sample detector cp pp ys) := by
  refine ⟨rfl, fun sample pp nm => rfl, ?_⟩
  intro sample detector pp nm xs ys hd
  simp [process_images, process_faces, crop_faces, hd]

/-- Concrete instance of C8: a run whose only image has no detected faces
saves nothing. -/
theorem C8_no_faces_skips_image_witness :
    process_images sample0 (fun _ => []) cp0 ⟨false, false, 1, 1⟩
        ([] ++ ("a", img1) :: [])
      = process_images sample0 (fun _ => []) cp0 ⟨false, false, 1, 1⟩ []
        ++ process_images sample0 (fun _ => []) cp0 ⟨false, false, 1, 1⟩ [] :=
  (C8_no_faces_skips_image img1 cp0).2.2 sample0 (fun _ => [])
    ⟨false, false, 1, 1⟩ "a" [] [] rfl

/-- C10: for a non-empty face list, `crop_faces` returns `some` of a list
with exactly one output per face, in face order, and output `i` carries the
confidence of face `i`. -/
theorem C10_one_output_per_face (img : RgbImage) (faces : List Face)
    (cp : CropParams) (h : faces ≠ []) :
    ∃ outs, crop_faces ⟨img, faces⟩ cp = some outs ∧
      outs.length = faces.length ∧
      ∀ (i : ℕ) (hi : i < outs.length) (hif : i < faces.length),
        (outs[i]).confidence = (faces[i]).confidence := by
  have hlen : faces.length ≠ 0 := by simpa using h
  have hsome : crop_faces ⟨img, faces⟩ cp
      = some (faces.map fun face =>
          let crop := calculate_face_crop face.rect
            (Rect.with_size (Rect.at' 0 0) ((img.width : ℚ)) ((img.height : ℚ))) cp
          { image := crop_imm img
              (f32_as_u32 crop.x) (f32_as_u32 crop.y)
              (f32_as_u32 crop.width) (f32_as_u32 crop.height),
            confidence := face.confidence }) := by
    simp [crop_faces, hlen]
  refine ⟨_, hsome, by simp, ?_⟩
  intro i hi hif
  simp

/-- A singleton face list for the C10 instance. -/
def faces1 : List Face :=
  [⟨⟨0, 0, 1, 1⟩, 9/10⟩]

/-- Concrete instance of C10 on a one-face list. -/
theorem C10_one_output_per_face_witness :
    ∃ outs, crop_faces ⟨img1, faces1⟩ cp0 = some outs ∧
      outs.length = faces1.length ∧
      ∀ (i : ℕ) (hi : i < outs.length) (hif : i < faces1.length),
        (outs[i]).confidence = (faces1[i]).confidence :=
  C10_one_output_per_face img1 faces1 cp0 (List.cons_ne_nil _ _)

end Facecrop
